import Mathlib

/-!
Verification of the bank-accounting program (`accounts.py`).

The program defines two classes: `BasicAccount` (non-overdraft) and
`PremiumAccount` (overdraft-capable, subclass of `BasicAccount`).  We give a
shallow embedding: each class becomes a structure, each method a function on
that structure.  Monetary amounts are Python floats in the source; the
documentation of the program states that internal arithmetic is never rounded,
so amounts are embedded as exact rationals (`ℚ`).  A method argument that
Python would pass through `float(...)` is embedded as `AmountInput`: either a
numeric value or a non-numeric token on which `float` raises `ValueError`.
Printed outcome messages are embedded as a `TxResult` value.
-/

namespace BankAccounts

/-- Argument to `deposit`/`withdraw`: `float(amount)` either succeeds with a
numeric value `q` or raises `ValueError` (`nonNum`). -/
inductive AmountInput where
  | num (q : ℚ)
  | nonNum
deriving DecidableEq

/-- Outcome of a deposit/withdraw call, as signalled by the printed message:
`ok` (confirmation printed), `invalidAmount` (either `Not a number. Try
again.` or `Negative input not allowed.`), `insufficientFunds`
(`Can not withdraw ...`). -/
inductive TxResult where
  | ok
  | invalidAmount
  | insufficientFunds
deriving DecidableEq

/-- State of a `BasicAccount` object: holder `name`, `balance`, account number
`acNum`, and the optional card fields (`cardNum`, `cardExp`), absent until a
card is issued. -/
structure BasicAccount where
  name : String
  balance : ℚ
  acNum : Nat
  cardNum : Option String
  cardExp : Option (Nat × Nat)
deriving DecidableEq

/-- `BasicAccount.openAccount`: increments the class-level counter
`BasicAccount.account_num`.  The counter is threaded explicitly. -/
def openAccount (c : Nat) : Nat := c + 1

/-- `BasicAccount.__init__(theAcName, theOpeningBalance)`: sets the balance to
the opening balance (no validation), stores the name, increments the shared
counter via `openAccount`, and assigns its new value as `acNum`.  Returns the
new counter value together with the new account. -/
def basicInit (c : Nat) (theAcName : String) (theOpeningBalance : ℚ) :
    Nat × BasicAccount :=
  let c' := openAccount c
  (c', { name := theAcName, balance := theOpeningBalance, acNum := c',
         cardNum := none, cardExp := none })

/-- `BasicAccount.deposit(amount)`: a failing `float(amount)` prints
`Not a number. Try again.`; a negative value prints `Negative input not
allowed.`; otherwise the amount is added to the balance. -/
def basicDeposit (s : BasicAccount) (amount : AmountInput) :
    BasicAccount × TxResult :=
  match amount with
  | .nonNum => (s, .invalidAmount)
  | .num q =>
    if q < 0 then (s, .invalidAmount)
    else ({ s with balance := s.balance + q }, .ok)

/-- `BasicAccount.withdraw(amount)`: rejects non-numeric and negative input;
rejects `flt_amount > self.balance` with the `Can not withdraw` message;
otherwise subtracts the amount from the balance. -/
def basicWithdraw (s : BasicAccount) (amount : AmountInput) :
    BasicAccount × TxResult :=
  match amount with
  | .nonNum => (s, .invalidAmount)
  | .num q =>
    if q < 0 then (s, .invalidAmount)
    else if s.balance < q then (s, .insufficientFunds)
    else ({ s with balance := s.balance - q }, .ok)

/-- `BasicAccount.getAvailableBalance()`: returns the balance (no overdraft
for basic accounts). -/
def basicGetAvailableBalance (s : BasicAccount) : ℚ := s.balance

/-- `BasicAccount.getBalance()`. -/
def getBalance (s : BasicAccount) : ℚ := s.balance

/-- Fuel-driven helper for `digitCount`; the fuel argument only makes the
recursion structural and is irrelevant once it is at least `n`
(see `digitCountAux_eq_log`). -/
def digitCountAux : Nat → Nat → Nat
  | 0, _ => 1
  | fuel + 1, n => if n < 10 then 1 else digitCountAux fuel (n / 10) + 1

/-- Number of characters of `str(n)` for a natural number `n`: the number of
decimal digits (1 for `n = 0`). -/
def digitCount (n : Nat) : Nat := digitCountAux n n

/-- Embedding of the Python expression `int(str(exp_year)[2:])` used by
`issueNewCard`.  `str(exp_year)` is the decimal representation of `exp_year`;
`[2:]` drops its first two characters.  When `exp_year` has at most two
digits the remaining string is empty and `int` of the empty string raises
`ValueError` (modelled by `none`).  When `exp_year` has `d ≥ 3` digits, the
remaining string holds its last `d - 2` digits, whose numeric value is
`exp_year % 10 ^ (d - 2)`. -/
def expYearSlice (e : Nat) : Option Nat :=
  if e < 100 then none
  else some (e % 10 ^ (digitCount e - 2))

/-- The 16-character card number built by `issueNewCard`: 16 successive draws
from `random.randint(0,9)` (the draws are embedded as a function
`rng : Nat → Fin 10` giving the i-th draw), each converted with `str` and
concatenated. -/
def cardNumString (rng : Nat → Fin 10) : String :=
  String.mk ((List.range 16).map fun i => Nat.digitChar (rng i))

/-- `BasicAccount.issueNewCard()`: computes `exp_year = now().year + 3`, sets
`cardExp = (now().month, int(str(exp_year)[2:]))`, then builds the 16-digit
`cardNum`, overwriting any existing card.  The current date is passed
explicitly as `year`/`month`; `none` models the `ValueError` escaping when the
sliced year string is empty. -/
def issueNewCard (s : BasicAccount) (year month : Nat) (rng : Nat → Fin 10) :
    Option BasicAccount :=
  match expYearSlice (year + 3) with
  | none => none
  | some y2 =>
    some { s with cardExp := some (month, y2),
                  cardNum := some (cardNumString rng) }

/-- `BasicAccount.closeAccount()`: runs `self.withdraw(self.balance)`, prints
`Closing account.` and returns `True`. -/
def basicCloseAccount (s : BasicAccount) : BasicAccount × Bool :=
  ((basicWithdraw s (.num s.balance)).1, true)

/-- State of a `PremiumAccount` object: the inherited `BasicAccount` fields
plus `overdraftLimit` and the cached `overdraft` flag. -/
structure PremiumAccount extends BasicAccount where
  overdraftLimit : ℚ
  overdraft : Bool
deriving DecidableEq

/-- `PremiumAccount.__init__(theAcName, theOpeningBalance, theInitialOverdraft)`:
runs the base initializer (which increments the shared counter and assigns the
account number), stores the initial overdraft limit, and sets `overdraft` to
`False` unconditionally. -/
def premiumInit (c : Nat) (theAcName : String)
    (theOpeningBalance theInitialOverdraft : ℚ) : Nat × PremiumAccount :=
  let p := basicInit c theAcName theOpeningBalance
  (p.1, { toBasicAccount := p.2, overdraftLimit := theInitialOverdraft,
          overdraft := false })

/-- `PremiumAccount.setOverdraftLimit(newLimit)`: replaces the limit, no
validation. -/
def setOverdraftLimit (s : PremiumAccount) (newLimit : ℚ) : PremiumAccount :=
  { s with overdraftLimit := newLimit }

/-- `PremiumAccount.getAvailableBalance()`: balance plus overdraft limit. -/
def premiumGetAvailableBalance (s : PremiumAccount) : ℚ :=
  s.balance + s.overdraftLimit

/-- `PremiumAccount.deposit(amount)`: runs the base deposit, then (always,
whether or not the deposit succeeded) clears `overdraft` when the flag is set
and the balance is strictly positive
(`if self.overdraft and self.balance > 0.0`). -/
def premiumDeposit (s : PremiumAccount) (amount : AmountInput) :
    PremiumAccount × TxResult :=
  let p := basicDeposit s.toBasicAccount amount
  let s' : PremiumAccount := { s with toBasicAccount := p.1 }
  if s'.overdraft = true ∧ 0 < s'.balance then
    ({ s' with overdraft := false }, p.2)
  else (s', p.2)

/-- `PremiumAccount.withdraw(amount)`: rejects non-numeric and negative input;
rejects `flt_amount > self.balance + self.overdraftLimit`; otherwise subtracts
and then sets `overdraft = True` when the new balance is negative (the flag is
never cleared by `withdraw`). -/
def premiumWithdraw (s : PremiumAccount) (amount : AmountInput) :
    PremiumAccount × TxResult :=
  match amount with
  | .nonNum => (s, .invalidAmount)
  | .num q =>
    if q < 0 then (s, .invalidAmount)
    else if s.balance + s.overdraftLimit < q then (s, .insufficientFunds)
    else
      let s' : PremiumAccount :=
        { s with toBasicAccount := { s.toBasicAccount with balance := s.balance - q } }
      if s'.balance < 0 then ({ s' with overdraft := true }, .ok)
      else (s', .ok)

/-- `PremiumAccount.closeAccount()`: when `overdraft` is set, prints the
shortfall message and returns `False`; otherwise runs `super().closeAccount()`,
i.e. `self.withdraw(self.balance)` with dynamic dispatch to
`PremiumAccount.withdraw` — and, the else branch having no `return` statement,
the method returns `None` (`Option.none`). -/
def premiumCloseAccount (s : PremiumAccount) : PremiumAccount × Option Bool :=
  if s.overdraft then (s, some false)
  else ((premiumWithdraw s (.num s.balance)).1, none)

/-- The operations of the basic variant that mutate account state. -/
inductive BasicOp where
  | deposit (a : AmountInput)
  | withdraw (a : AmountInput)
  | close

/-- Apply one basic-variant operation to the account state. -/
def applyBasicOp (s : BasicAccount) : BasicOp → BasicAccount
  | .deposit a => (basicDeposit s a).1
  | .withdraw a => (basicWithdraw s a).1
  | .close => (basicCloseAccount s).1

/-- Apply a sequence of basic-variant operations, left to right. -/
def applyBasicOps (s : BasicAccount) : List BasicOp → BasicAccount
  | [] => s
  | op :: rest => applyBasicOps (applyBasicOp s op) rest

/-- The operations of the overdraft variant that mutate account state. -/
inductive PremiumOp where
  | deposit (a : AmountInput)
  | withdraw (a : AmountInput)
  | setLimit (l : ℚ)
  | close

/-- Apply one overdraft-variant operation to the account state. -/
def applyPremiumOp (s : PremiumAccount) : PremiumOp → PremiumAccount
  | .deposit a => (premiumDeposit s a).1
  | .withdraw a => (premiumWithdraw s a).1
  | .setLimit l => setOverdraftLimit s l
  | .close => (premiumCloseAccount s).1

/-- Apply a sequence of overdraft-variant operations, left to right. -/
def applyPremiumOps (s : PremiumAccount) : List PremiumOp → PremiumAccount
  | [] => s
  | op :: rest => applyPremiumOps (applyPremiumOp s op) rest

/-- One account creation: which constructor is called and with which
arguments. -/
inductive Creation where
  | basic (nm : String) (bal : ℚ)
  | premium (nm : String) (bal lim : ℚ)

/-- Run one constructor against the shared counter; return the new counter
value and the account number the constructor assigned. -/
def createOne (c : Nat) : Creation → Nat × Nat
  | .basic nm bal => ((basicInit c nm bal).1, (basicInit c nm bal).2.acNum)
  | .premium nm bal lim =>
    ((premiumInit c nm bal lim).1, (premiumInit c nm bal lim).2.acNum)

/-- Run a sequence of constructions against the shared counter; return the
final counter value and the assigned account numbers in creation order. -/
def createAll (c : Nat) : List Creation → Nat × List Nat
  | [] => (c, [])
  | cr :: rest =>
    let p := createOne c cr
    let q := createAll p.1 rest
    (q.1, p.2 :: q.2)

example : (basicDeposit (basicInit 0 "A" 100).2 (.num 50)).1.balance = 150 := by
  norm_num [basicDeposit, basicInit, openAccount]

example : (basicWithdraw (basicInit 0 "A" 100).2 (.num 150)).2 =
    TxResult.insufficientFunds := by
  norm_num [basicWithdraw, basicInit, openAccount]

example :
    (premiumWithdraw (premiumInit 0 "B" 50 100).2 (.num 120)).1.balance = -70 := by
  norm_num [premiumWithdraw, premiumInit, basicInit, openAccount]

example : expYearSlice 2029 = some 29 := by decide

example : expYearSlice 123 = some 3 := by decide

lemma digitCountAux_eq_log :
    ∀ fuel n, n ≤ fuel → digitCountAux fuel n = Nat.log 10 n + 1 := by
  intro fuel
  induction fuel with
  | zero =>
    intro n hn
    have : n = 0 := Nat.le_zero.mp hn
    subst this
    simp [digitCountAux]
  | succ fuel ih =>
    intro n hn
    by_cases h : n < 10
    · simp [digitCountAux, h, Nat.log_of_lt h]
    · push_neg at h
      have hdiv : n / 10 ≤ fuel := by omega
      rw [digitCountAux, if_neg (by omega), ih _ hdiv,
        Nat.log_of_one_lt_of_le (by norm_num) h]

lemma digitCount_eq_log (n : Nat) : digitCount n = Nat.log 10 n + 1 :=
  digitCountAux_eq_log n n le_rfl

/-- Sanity check that `digitCount` is the standard decimal digit count. -/
lemma digitCount_eq_digits_len (n : Nat) (hn : n ≠ 0) :
    digitCount n = (Nat.digits 10 n).length := by
  rw [digitCount_eq_log, Nat.digits_len 10 n (by norm_num) hn]

/-- For `exp_year` between 1000 and 10002 the slice `int(str(exp_year)[2:])`
computes `exp_year % 100`. -/
lemma expYearSlice_eq (e : Nat) (h1 : 1000 ≤ e) (h2 : e ≤ 10002) :
    expYearSlice e = some (e % 100) := by
  rw [expYearSlice, if_neg (by omega), digitCount_eq_log]
  rcases lt_or_le e 10000 with h | h
  · have hlog : Nat.log 10 e = 3 :=
      Nat.log_eq_of_pow_le_of_lt_pow (by norm_num; omega) (by norm_num; omega)
    rw [hlog]
    norm_num
  · have hlog : Nat.log 10 e = 4 :=
      Nat.log_eq_of_pow_le_of_lt_pow (by norm_num; omega) (by norm_num; omega)
    rw [hlog]
    norm_num
    omega

/-- C7: the shared process-wide counter increments exactly once per
construction (either variant), and for every starting counter value and every
sequence of creations the final counter has advanced by the number of
creations, while the assigned account numbers are pairwise distinct and
strictly increasing in creation order. -/
theorem account_numbers_strict_mono :
    (∀ (c : Nat) (cr : Creation), (createOne c cr).1 = c + 1) ∧
    ∀ (c : Nat) (crs : List Creation),
      (createAll c crs).1 = c + crs.length ∧
      List.Pairwise (· < ·) (createAll c crs).2 ∧
      List.Pairwise (· ≠ ·) (createAll c crs).2 := by
  have hone : ∀ (c : Nat) (cr : Creation), createOne c cr = (c + 1, c + 1) := by
    intro c cr
    cases cr <;> rfl
  have hall : ∀ (crs : List Creation) (c : Nat),
      createAll c crs = (c + crs.length, List.range' (c + 1) crs.length) := by
    intro crs
    induction crs with
    | nil => intro c; simp [createAll]
    | cons cr rest ih =>
      intro c
      simp only [createAll, hone, ih, List.length_cons, List.range'_succ]
      exact Prod.ext (by omega) rfl
  refine ⟨fun c cr => by rw [hone], fun c crs => ?_⟩
  rw [hall]
  refine ⟨rfl, List.pairwise_lt_range' .., ?_⟩
  exact (List.pairwise_lt_range' ..).imp Nat.ne_of_lt

lemma basicDeposit_nonneg (s : BasicAccount) (a : AmountInput)
    (h : 0 ≤ s.balance) : 0 ≤ (basicDeposit s a).1.balance := by
  cases a with
  | nonNum => exact h
  | num q =>
    simp only [basicDeposit]
    split_ifs with hq
    · exact h
    · push_neg at hq
      show 0 ≤ s.balance + q
      linarith

lemma basicWithdraw_nonneg (s : BasicAccount) (a : AmountInput)
    (h : 0 ≤ s.balance) : 0 ≤ (basicWithdraw s a).1.balance := by
  cases a with
  | nonNum => exact h
  | num q =>
    simp only [basicWithdraw]
    split_ifs with hq hb
    · exact h
    · exact h
    · push_neg at hb
      show 0 ≤ s.balance - q
      linarith

/-- C3: for the base variant, from any state with non-negative balance, the
balance stays non-negative after every sequence of operations (deposit,
withdraw, close); the construction conjunct records that the opening balance
is stored without validation, so non-negativity at the start is a hypothesis,
not a guarantee of the constructor. -/
theorem basic_balance_nonneg :
    (∀ (c : Nat) (nm : String) (b : ℚ), (basicInit c nm b).2.balance = b) ∧
    ∀ (ops : List BasicOp) (s : BasicAccount), 0 ≤ s.balance →
      0 ≤ (applyBasicOps s ops).balance := by
  refine ⟨fun c nm b => rfl, fun ops => ?_⟩
  induction ops with
  | nil => intro s h; exact h
  | cons op rest ih =>
    intro s h
    simp only [applyBasicOps]
    refine ih _ ?_
    cases op with
    | deposit a => exact basicDeposit_nonneg s a h
    | withdraw a => exact basicWithdraw_nonneg s a h
    | close => exact basicWithdraw_nonneg s _ h

/-- Witness for C3 at a concrete account and operation sequence. -/
theorem basic_balance_nonneg_witness :
    0 ≤ (applyBasicOps ⟨"A", 100, 1, none, none⟩
      [.deposit (.num 50), .withdraw (.num 30), .close]).balance :=
  basic_balance_nonneg.2 _ _ (by norm_num)

/-- C10: an overdraft account directly after construction has
`overdraft = False` unconditionally; when the (unvalidated) opening balance is
strictly negative, the flag therefore disagrees with `balance < 0`. -/
theorem premium_init_overdraft_false (c : Nat) (nm : String) (bal lim : ℚ) :
    (premiumInit c nm bal lim).2.overdraft = false ∧
    (bal < 0 →
      ¬((premiumInit c nm bal lim).2.overdraft = true ↔
        (premiumInit c nm bal lim).2.balance < 0)) := by
  refine ⟨rfl, fun hbal hiff => ?_⟩
  have hb : (premiumInit c nm bal lim).2.balance = bal := rfl
  have hflag := hiff.mpr (by rw [hb]; exact hbal)
  simp [premiumInit, basicInit] at hflag

/-- Witness for C10 at a concrete negative opening balance. -/
theorem premium_init_overdraft_false_witness :
    ¬((premiumInit 0 "A" (-1) 0).2.overdraft = true ↔
      (premiumInit 0 "A" (-1) 0).2.balance < 0) :=
  (premium_init_overdraft_false 0 "A" (-1) 0).2 (by norm_num)

lemma premiumWithdraw_inv (s : PremiumAccount) (a : AmountInput)
    (h : -s.overdraftLimit ≤ s.balance) :
    -(premiumWithdraw s a).1.overdraftLimit ≤ (premiumWithdraw s a).1.balance := by
  cases a with
  | nonNum => exact h
  | num q =>
    simp only [premiumWithdraw]
    split_ifs with hq hb hneg
    · exact h
    · exact h
    · push_neg at hb
      show -s.overdraftLimit ≤ s.balance - q
      linarith
    · push_neg at hb
      show -s.overdraftLimit ≤ s.balance - q
      linarith

lemma premiumDeposit_inv (s : PremiumAccount) (a : AmountInput)
    (h : -s.overdraftLimit ≤ s.balance) :
    -(premiumDeposit s a).1.overdraftLimit ≤ (premiumDeposit s a).1.balance := by
  cases a with
  | nonNum =>
    simp only [premiumDeposit, basicDeposit]
    split_ifs <;> exact h
  | num q =>
    simp only [premiumDeposit, basicDeposit]
    split_ifs with hq hc hc
    · exact h
    · exact h
    · push_neg at hq
      show -s.overdraftLimit ≤ s.balance + q
      linarith
    · push_neg at hq
      show -s.overdraftLimit ≤ s.balance + q
      linarith

lemma premiumClose_inv (s : PremiumAccount)
    (h : -s.overdraftLimit ≤ s.balance) :
    -(premiumCloseAccount s).1.overdraftLimit ≤ (premiumCloseAccount s).1.balance := by
  by_cases hf : s.overdraft
  · simpa [premiumCloseAccount, hf] using h
  · simpa [premiumCloseAccount, hf] using premiumWithdraw_inv s (.num s.balance) h

/-- C1 counterexample: the invariant `balance ≥ -overdraftLimit` does not hold
after every operation.  Construction with opening balance `-500` and limit
`100` violates it directly, and from a state where the invariant holds
(opening balance `-70`, limit `100`), the unvalidated `setOverdraftLimit 0`
breaks it. -/
theorem overdraft_invariant_cex :
    ¬(-(premiumInit 0 "A" (-500) 100).2.overdraftLimit ≤
        (premiumInit 0 "A" (-500) 100).2.balance) ∧
    (-(premiumInit 0 "B" (-70) 100).2.overdraftLimit ≤
        (premiumInit 0 "B" (-70) 100).2.balance) ∧
    ¬(-(setOverdraftLimit (premiumInit 0 "B" (-70) 100).2 0).overdraftLimit ≤
        (setOverdraftLimit (premiumInit 0 "B" (-70) 100).2 0).balance) := by
  refine ⟨?_, ?_, ?_⟩ <;>
    norm_num [premiumInit, basicInit, setOverdraftLimit, openAccount]

/-- C1 amended: the invariant `balance ≥ -overdraftLimit` is established at
construction provided the opening balance respects the initial limit, and is
preserved by deposit, withdraw and close; it is preserved by
`setOverdraftLimit newLimit` provided `balance ≥ -newLimit` (the setter itself
performs no such validation). -/
theorem overdraft_invariant_amended :
    (∀ (c : Nat) (nm : String) (bal lim : ℚ), -lim ≤ bal →
      -(premiumInit c nm bal lim).2.overdraftLimit ≤
        (premiumInit c nm bal lim).2.balance) ∧
    ∀ (s : PremiumAccount) (op : PremiumOp),
      -s.overdraftLimit ≤ s.balance →
      (∀ l, op = PremiumOp.setLimit l → -l ≤ s.balance) →
      -(applyPremiumOp s op).overdraftLimit ≤ (applyPremiumOp s op).balance := by
  refine ⟨fun c nm bal lim h => h, fun s op h hset => ?_⟩
  cases op with
  | deposit a => exact premiumDeposit_inv s a h
  | withdraw a => exact premiumWithdraw_inv s a h
  | setLimit l => exact hset l rfl
  | close => exact premiumClose_inv s h

/-- Witness for the amended C1 at a concrete state and operation. -/
theorem overdraft_invariant_amended_witness :
    -(applyPremiumOp ⟨⟨"A", 50, 1, none, none⟩, 100, false⟩
        (.withdraw (.num 120))).overdraftLimit ≤
      (applyPremiumOp ⟨⟨"A", 50, 1, none, none⟩, 100, false⟩
        (.withdraw (.num 120))).balance :=
  overdraft_invariant_amended.2 ⟨⟨"A", 50, 1, none, none⟩, 100, false⟩
    (.withdraw (.num 120)) (by norm_num) (fun l h => nomatch h)

lemma premiumDeposit_flags (s : PremiumAccount) (a : AmountInput)
    (h1 : s.balance < 0 → s.overdraft = true)
    (h2 : s.overdraft = true → s.balance ≤ 0) :
    ((premiumDeposit s a).1.balance < 0 →
      (premiumDeposit s a).1.overdraft = true) ∧
    ((premiumDeposit s a).1.overdraft = true →
      (premiumDeposit s a).1.balance ≤ 0) := by
  cases a with
  | nonNum =>
    simp only [premiumDeposit, basicDeposit]
    split_ifs with hc
    · exact ⟨fun hb => absurd hb (by push_neg; exact hc.2.le),
        fun hf => nomatch hf⟩
    · exact ⟨h1, h2⟩
  | num q =>
    simp only [premiumDeposit, basicDeposit]
    split_ifs with hq hc hc
    · exact ⟨fun hb => absurd hb (by push_neg; exact hc.2.le),
        fun hf => nomatch hf⟩
    · exact ⟨h1, h2⟩
    · refine ⟨fun hb => ?_, fun hf => nomatch hf⟩
      exact absurd hb (by push_neg; exact hc.2.le)
    · push_neg at hq
      rcases not_and_or.mp hc with hcf | hcb
      · refine ⟨fun hb => ?_, fun hf => ?_⟩
        · show s.overdraft = true
          apply h1
          have : s.balance + q < 0 := hb
          linarith
        · exact absurd hf hcf
      · refine ⟨fun hb => ?_, fun hf => ?_⟩
        · show s.overdraft = true
          apply h1
          have : s.balance + q < 0 := hb
          linarith
        · push_neg at hcb
          exact hcb

lemma premiumWithdraw_flags (s : PremiumAccount) (a : AmountInput)
    (h1 : s.balance < 0 → s.overdraft = true)
    (h2 : s.overdraft = true → s.balance ≤ 0) :
    ((premiumWithdraw s a).1.balance < 0 →
      (premiumWithdraw s a).1.overdraft = true) ∧
    ((premiumWithdraw s a).1.overdraft = true →
      (premiumWithdraw s a).1.balance ≤ 0) := by
  cases a with
  | nonNum => exact ⟨h1, h2⟩
  | num q =>
    simp only [premiumWithdraw]
    split_ifs with hq hb hneg
    · exact ⟨h1, h2⟩
    · exact ⟨h1, h2⟩
    · refine ⟨fun _ => rfl, fun _ => ?_⟩
      have : s.balance - q < 0 := hneg
      exact this.le
    · refine ⟨fun hb2 => absurd hb2 hneg, fun hf => ?_⟩
      push_neg at hq
      have := h2 hf
      show s.balance - q ≤ 0
      linarith

/-- C2 counterexample: an overdraft account opened with balance 50 and limit
100, after `withdraw(60)` (balance `-10`, flag set) and `deposit(10)`
(balance exactly 0), still carries `isOverdrawn = True` although
`balance < 0` is false: the deposit clears the flag only for a strictly
positive balance. -/
theorem isOverdrawn_flag_cex :
    ((premiumDeposit (premiumWithdraw (premiumInit 0 "A" 50 100).2
        (.num 60)).1 (.num 10)).1.overdraft = true) ∧
    ¬((premiumDeposit (premiumWithdraw (premiumInit 0 "A" 50 100).2
        (.num 60)).1 (.num 10)).1.balance < 0) := by
  norm_num [premiumInit, basicInit, premiumWithdraw, premiumDeposit,
    basicDeposit, openAccount]

/-- C2 amended: from a state whose flag is consistent (`balance < 0` implies
the flag, and the flag implies `balance ≤ 0`), every deposit and every
withdraw keeps it consistent in that same sense, and the flag equals
`balance < 0` whenever the resulting balance is not exactly 0; a deposit that
brings the balance exactly to 0 leaves the flag set, since the code clears it
only when the balance is strictly positive. -/
theorem isOverdrawn_flag_amended (s : PremiumAccount) (a : AmountInput)
    (h1 : s.balance < 0 → s.overdraft = true)
    (h2 : s.overdraft = true → s.balance ≤ 0) :
    (((premiumDeposit s a).1.balance < 0 →
        (premiumDeposit s a).1.overdraft = true) ∧
      ((premiumDeposit s a).1.overdraft = true →
        (premiumDeposit s a).1.balance ≤ 0) ∧
      ((premiumDeposit s a).1.balance ≠ 0 →
        ((premiumDeposit s a).1.overdraft = true ↔
          (premiumDeposit s a).1.balance < 0))) ∧
    (((premiumWithdraw s a).1.balance < 0 →
        (premiumWithdraw s a).1.overdraft = true) ∧
      ((premiumWithdraw s a).1.overdraft = true →
        (premiumWithdraw s a).1.balance ≤ 0) ∧
      ((premiumWithdraw s a).1.balance ≠ 0 →
        ((premiumWithdraw s a).1.overdraft = true ↔
          (premiumWithdraw s a).1.balance < 0))) := by
  have hd := premiumDeposit_flags s a h1 h2
  have hw := premiumWithdraw_flags s a h1 h2
  refine ⟨⟨hd.1, hd.2, fun hne => ⟨fun hf => ?_, hd.1⟩⟩,
    ⟨hw.1, hw.2, fun hne => ⟨fun hf => ?_, hw.1⟩⟩⟩
  · exact lt_of_le_of_ne (hd.2 hf) hne
  · exact lt_of_le_of_ne (hw.2 hf) hne

/-- Witness for the amended C2 at a concrete overdrawn state and amount. -/
theorem isOverdrawn_flag_amended_witness :
    (((premiumDeposit ⟨⟨"A", -10, 1, none, none⟩, 100, true⟩
          (.num 80)).1.balance < 0 →
        (premiumDeposit ⟨⟨"A", -10, 1, none, none⟩, 100, true⟩
          (.num 80)).1.overdraft = true) ∧
      ((premiumDeposit ⟨⟨"A", -10, 1, none, none⟩, 100, true⟩
          (.num 80)).1.overdraft = true →
        (premiumDeposit ⟨⟨"A", -10, 1, none, none⟩, 100, true⟩
          (.num 80)).1.balance ≤ 0) ∧
      ((premiumDeposit ⟨⟨"A", -10, 1, none, none⟩, 100, true⟩
          (.num 80)).1.balance ≠ 0 →
        ((premiumDeposit ⟨⟨"A", -10, 1, none, none⟩, 100, true⟩
            (.num 80)).1.overdraft = true ↔
          (premiumDeposit ⟨⟨"A", -10, 1, none, none⟩, 100, true⟩
            (.num 80)).1.balance < 0))) ∧
    (((premiumWithdraw ⟨⟨"A", -10, 1, none, none⟩, 100, true⟩
          (.num 80)).1.balance < 0 →
        (premiumWithdraw ⟨⟨"A", -10, 1, none, none⟩, 100, true⟩
          (.num 80)).1.overdraft = true) ∧
      ((premiumWithdraw ⟨⟨"A", -10, 1, none, none⟩, 100, true⟩
          (.num 80)).1.overdraft = true →
        (premiumWithdraw ⟨⟨"A", -10, 1, none, none⟩, 100, true⟩
          (.num 80)).1.balance ≤ 0) ∧
      ((premiumWithdraw ⟨⟨"A", -10, 1, none, none⟩, 100, true⟩
          (.num 80)).1.balance ≠ 0 →
        ((premiumWithdraw ⟨⟨"A", -10, 1, none, none⟩, 100, true⟩
            (.num 80)).1.overdraft = true ↔
          (premiumWithdraw ⟨⟨"A", -10, 1, none, none⟩, 100, true⟩
            (.num 80)).1.balance < 0))) :=
  isOverdrawn_flag_amended ⟨⟨"A", -10, 1, none, none⟩, 100, true⟩ (.num 80)
    (fun _ => rfl) (fun _ => by norm_num)

/-- C4: with a numeric, non-negative amount, `withdraw` fails with
`InsufficientFunds` exactly when the amount exceeds the balance (base
variant), respectively the balance plus the overdraft limit (overdraft
variant); on that failure the state is completely unchanged, and otherwise
the amount is subtracted from the balance. -/
theorem withdraw_insufficient_iff (q : ℚ) (hq : 0 ≤ q) :
    (∀ s : BasicAccount,
      ((basicWithdraw s (.num q)).2 = .insufficientFunds ↔ s.balance < q) ∧
      (s.balance < q → basicWithdraw s (.num q) = (s, .insufficientFunds)) ∧
      (q ≤ s.balance → basicWithdraw s (.num q) =
        ({ s with balance := s.balance - q }, .ok))) ∧
    ∀ s : PremiumAccount,
      ((premiumWithdraw s (.num q)).2 = .insufficientFunds ↔
        s.balance + s.overdraftLimit < q) ∧
      (s.balance + s.overdraftLimit < q →
        premiumWithdraw s (.num q) = (s, .insufficientFunds)) ∧
      (q ≤ s.balance + s.overdraftLimit →
        (premiumWithdraw s (.num q)).2 = .ok ∧
        (premiumWithdraw s (.num q)).1.balance = s.balance - q) := by
  constructor
  · intro s
    simp only [basicWithdraw, if_neg (not_lt.mpr hq)]
    by_cases h : s.balance < q
    · rw [if_pos h]
      exact ⟨by simp [h], fun _ => rfl, fun hle => absurd h (not_lt.mpr hle)⟩
    · rw [if_neg h]
      exact ⟨by simp [h], fun hlt => absurd hlt h, fun _ => rfl⟩
  · intro s
    simp only [premiumWithdraw, if_neg (not_lt.mpr hq)]
    by_cases h : s.balance + s.overdraftLimit < q
    · rw [if_pos h]
      exact ⟨by simp [h], fun _ => rfl, fun hle => absurd h (not_lt.mpr hle)⟩
    · rw [if_neg h]
      split_ifs with hneg
      · exact ⟨by simp [h], fun hlt => absurd hlt h, fun _ => ⟨rfl, rfl⟩⟩
      · exact ⟨by simp [h], fun hlt => absurd hlt h, fun _ => ⟨rfl, rfl⟩⟩

/-- Witness for C4: the spec scenarios — a base account at balance 100
refuses `withdraw(150)` unchanged, and an overdraft account at balance 50
with limit 100 lets `withdraw(120)` through, leaving balance `50 - 120`. -/
theorem withdraw_insufficient_iff_witness :
    basicWithdraw ⟨"A", 100, 1, none, none⟩ (.num 150) =
      (⟨"A", 100, 1, none, none⟩, .insufficientFunds) ∧
    (premiumWithdraw ⟨⟨"B", 50, 2, none, none⟩, 100, false⟩ (.num 120)).2 =
      .ok ∧
    (premiumWithdraw ⟨⟨"B", 50, 2, none, none⟩, 100, false⟩
      (.num 120)).1.balance = 50 - 120 :=
  ⟨((withdraw_insufficient_iff 150 (by norm_num)).1
      ⟨"A", 100, 1, none, none⟩).2.1 (by norm_num),
    ((withdraw_insufficient_iff 120 (by norm_num)).2
      ⟨⟨"B", 50, 2, none, none⟩, 100, false⟩).2.2 (by norm_num)⟩

lemma premiumDeposit_flag_le (s : PremiumAccount) (a : AmountInput)
    (h2 : s.overdraft = true → s.balance ≤ 0) :
    (premiumDeposit s a).1.overdraft = true →
      (premiumDeposit s a).1.balance ≤ 0 := by
  cases a with
  | nonNum =>
    simp only [premiumDeposit, basicDeposit]
    split_ifs with hc
    · exact fun hf => nomatch hf
    · exact h2
  | num q =>
    simp only [premiumDeposit, basicDeposit]
    split_ifs with hq hc hc
    · exact fun hf => nomatch hf
    · exact h2
    · exact fun hf => nomatch hf
    · intro hf
      rcases not_and_or.mp hc with hcf | hcb
      · exact absurd hf hcf
      · push_neg at hcb
        exact hcb

lemma premiumWithdraw_flag_le (s : PremiumAccount) (a : AmountInput)
    (h2 : s.overdraft = true → s.balance ≤ 0) :
    (premiumWithdraw s a).1.overdraft = true →
      (premiumWithdraw s a).1.balance ≤ 0 := by
  cases a with
  | nonNum => exact h2
  | num q =>
    simp only [premiumWithdraw]
    split_ifs with hq hb hneg
    · exact h2
    · exact h2
    · intro _
      have : s.balance - q < 0 := hneg
      exact this.le
    · intro hf
      push_neg at hq
      have := h2 hf
      show s.balance - q ≤ 0
      linarith

lemma premiumOp_flag_le (s : PremiumAccount) (op : PremiumOp)
    (h2 : s.overdraft = true → s.balance ≤ 0) :
    (applyPremiumOp s op).overdraft = true →
      (applyPremiumOp s op).balance ≤ 0 := by
  cases op with
  | deposit a => exact premiumDeposit_flag_le s a h2
  | withdraw a => exact premiumWithdraw_flag_le s a h2
  | setLimit l => exact h2
  | close =>
    show (premiumCloseAccount s).1.overdraft = true →
      (premiumCloseAccount s).1.balance ≤ 0
    by_cases hf : s.overdraft
    · simpa [premiumCloseAccount, hf] using h2
    · simpa [premiumCloseAccount, hf] using
        premiumWithdraw_flag_le s (.num s.balance) h2

/-- The flag-soundness property `overdraft = true → balance ≤ 0` holds in
every state reachable by operations from any constructed overdraft account
(the constructor starts with the flag cleared). -/
lemma premiumOps_flag_le (ops : List PremiumOp) :
    ∀ s : PremiumAccount, (s.overdraft = true → s.balance ≤ 0) →
      ((applyPremiumOps s ops).overdraft = true →
        (applyPremiumOps s ops).balance ≤ 0) := by
  induction ops with
  | nil => exact fun s h => h
  | cons op rest ih =>
    intro s h
    exact ih _ (premiumOp_flag_le s op h)

/-- C5: a non-numeric or negative amount makes deposit and withdraw fail with
`InvalidAmount` and leave the state unchanged, for both variants.  For the
overdraft variant, deposit additionally runs its flag-clearing step even on
invalid input; that step is a no-op in every state satisfying the reachable
flag-soundness property `overdraft = true → balance ≤ 0`, which the last
conjunct shows holds in all states reachable from any construction. -/
theorem invalid_amount_no_state_change (a : AmountInput)
    (h : a = .nonNum ∨ ∃ q, a = .num q ∧ q < 0) :
    (∀ s : BasicAccount,
      basicDeposit s a = (s, .invalidAmount) ∧
      basicWithdraw s a = (s, .invalidAmount)) ∧
    (∀ s : PremiumAccount, premiumWithdraw s a = (s, .invalidAmount)) ∧
    (∀ s : PremiumAccount, (s.overdraft = true → s.balance ≤ 0) →
      premiumDeposit s a = (s, .invalidAmount)) ∧
    ∀ (c : Nat) (nm : String) (bal lim : ℚ) (ops : List PremiumOp),
      ((applyPremiumOps (premiumInit c nm bal lim).2 ops).overdraft = true →
        (applyPremiumOps (premiumInit c nm bal lim).2 ops).balance ≤ 0) := by
  have hbd : ∀ s : BasicAccount, basicDeposit s a = (s, .invalidAmount) := by
    intro s
    rcases h with h | ⟨q, rfl, hq⟩
    · subst h; rfl
    · simp [basicDeposit, hq]
  refine ⟨fun s => ⟨hbd s, ?_⟩, fun s => ?_, fun s h2 => ?_, ?_⟩
  · rcases h with h | ⟨q, rfl, hq⟩
    · subst h; rfl
    · simp [basicWithdraw, hq]
  · rcases h with h | ⟨q, rfl, hq⟩
    · subst h; rfl
    · simp [premiumWithdraw, hq]
  · have hc : ¬(s.overdraft = true ∧ 0 < s.balance) := by
      rintro ⟨hf, hb⟩
      exact absurd hb (not_lt.mpr (h2 hf))
    rcases h with h | ⟨q, rfl, hq⟩
    · subst h
      simp only [premiumDeposit, basicDeposit]
      rw [if_neg hc]
    · simp only [premiumDeposit, basicDeposit, if_pos hq]
      rw [if_neg hc]
  · intro c nm bal lim ops
    refine premiumOps_flag_le ops _ (fun hf => ?_)
    simp [premiumInit, basicInit] at hf

/-- Witness for C5 at a concrete negative amount and concrete accounts. -/
theorem invalid_amount_no_state_change_witness :
    basicDeposit ⟨"A", 100, 1, none, none⟩ (.num (-5)) =
      (⟨"A", 100, 1, none, none⟩, .invalidAmount) ∧
    premiumWithdraw ⟨⟨"B", 50, 2, none, none⟩, 100, false⟩ (.num (-5)) =
      (⟨⟨"B", 50, 2, none, none⟩, 100, false⟩, .invalidAmount) :=
  ⟨((invalid_amount_no_state_change _
        (Or.inr ⟨-5, rfl, by norm_num⟩)).1 ⟨"A", 100, 1, none, none⟩).1,
    (invalid_amount_no_state_change _
        (Or.inr ⟨-5, rfl, by norm_num⟩)).2.1 ⟨⟨"B", 50, 2, none, none⟩, 100, false⟩⟩

lemma premiumDeposit_num_balance (s : PremiumAccount) (a : ℚ) (ha : 0 ≤ a) :
    (premiumDeposit s (.num a)).1.balance = s.balance + a := by
  simp only [premiumDeposit, basicDeposit, if_neg (not_lt.mpr ha)]
  split_ifs <;> rfl

lemma premiumDeposit_limit (s : PremiumAccount) (a : AmountInput) :
    (premiumDeposit s a).1.overdraftLimit = s.overdraftLimit := by
  cases a <;>
    (simp only [premiumDeposit, basicDeposit]; split_ifs <;> rfl)

/-- C6: for both variants, depositing `a ≥ 0` and then withdrawing `a`
returns the balance to its prior value, provided `a` does not exceed the
available balance right before the withdrawal. -/
theorem deposit_withdraw_roundtrip (a : ℚ) (ha : 0 ≤ a) :
    (∀ s : BasicAccount,
      a ≤ basicGetAvailableBalance (basicDeposit s (.num a)).1 →
      (basicWithdraw (basicDeposit s (.num a)).1 (.num a)).1.balance =
        s.balance) ∧
    ∀ s : PremiumAccount,
      a ≤ premiumGetAvailableBalance (premiumDeposit s (.num a)).1 →
      (premiumWithdraw (premiumDeposit s (.num a)).1 (.num a)).1.balance =
        s.balance := by
  constructor
  · intro s hav
    have hs1 : (basicDeposit s (.num a)).1 = { s with balance := s.balance + a } := by
      simp [basicDeposit, not_lt.mpr ha]
    rw [hs1]
    rw [hs1] at hav
    simp only [basicGetAvailableBalance] at hav
    have hav' : a ≤ s.balance + a := hav
    simp only [basicWithdraw, if_neg (not_lt.mpr ha), if_neg (not_lt.mpr hav')]
    show s.balance + a - a = s.balance
    ring
  · intro s hav
    simp only [premiumGetAvailableBalance, premiumDeposit_num_balance s a ha,
      premiumDeposit_limit] at hav
    simp only [premiumWithdraw, if_neg (not_lt.mpr ha),
      premiumDeposit_num_balance s a ha, premiumDeposit_limit,
      if_neg (not_lt.mpr hav)]
    split_ifs with hneg
    · show s.balance + a - a = s.balance
      ring
    · show s.balance + a - a = s.balance
      ring

/-- Witness for C6 at a concrete account and amount. -/
theorem deposit_withdraw_roundtrip_witness :
    (basicWithdraw (basicDeposit ⟨"A", 100, 1, none, none⟩ (.num 40)).1
      (.num 40)).1.balance = 100 :=
  (deposit_withdraw_roundtrip 40 (by norm_num)).1 ⟨"A", 100, 1, none, none⟩
    (by norm_num [basicDeposit, basicGetAvailableBalance])

lemma digitChar_isDigit : ∀ d : Fin 10, (Nat.digitChar d).isDigit = true := by
  decide

/-- C8 counterexample: at current year 120 (a year Python `datetime` admits),
`exp_year = 123` and `int(str(123)[2:])` stores expiry year 3, while
`(120 + 3) % 100 = 23`: the mod-100 description of the stored expiry year
fails. -/
theorem issueCard_expiry_cex :
    (issueNewCard ⟨"A", 0, 1, none, none⟩ 120 1 (fun _ => 0)).map
        (fun s => s.cardExp) = some (some (1, 3)) ∧
    (3 : Nat) ≠ (120 + 3) % 100 := by
  constructor
  · decide
  · decide

/-- C8 amended: for every account, digit source and month, and every current
year between 997 and 9999 (so for all four-digit values of `year + 3`, and the
five-digit values up to the Python `datetime` maximum year 9999, where the
slice agrees with mod 100), `issueNewCard` overwrites the card fields with a
card number that is exactly a 16-character digit string and the expiry
`(month, (year + 3) % 100)`. -/
theorem issueCard_amended (s : BasicAccount) (year month : Nat)
    (rng : Nat → Fin 10) (h1 : 997 ≤ year) (h2 : year ≤ 9999) :
    issueNewCard s year month rng =
      some { s with cardExp := some (month, (year + 3) % 100),
                    cardNum := some (cardNumString rng) } ∧
    (cardNumString rng).length = 16 ∧
    ((cardNumString rng).data.all Char.isDigit) = true := by
  refine ⟨?_, ?_, ?_⟩
  · simp only [issueNewCard, expYearSlice_eq (year + 3) (by omega) (by omega)]
  · simp [cardNumString]
  · show ((List.range 16).map fun i => Nat.digitChar (rng i)).all
      Char.isDigit = true
    rw [List.all_eq_true]
    intro c hc
    rw [List.mem_map] at hc
    obtain ⟨i, _, rfl⟩ := hc
    exact digitChar_isDigit (rng i)

/-- Witness for the amended C8 at a concrete date and digit source. -/
theorem issueCard_amended_witness :
    issueNewCard ⟨"A", 0, 1, none, none⟩ 2026 10 (fun _ => 0) =
      some { (⟨"A", 0, 1, none, none⟩ : BasicAccount) with
              cardExp := some (10, (2026 + 3) % 100),
              cardNum := some (cardNumString (fun _ => 0)) } ∧
    (cardNumString (fun _ => 0)).length = 16 ∧
    ((cardNumString (fun _ => 0)).data.all Char.isDigit) = true :=
  issueCard_amended ⟨"A", 0, 1, none, none⟩ 2026 10 (fun _ => 0)
    (by norm_num) (by norm_num)

/-- C9 counterexample: `close()` does not always drive the balance to 0 and
report success.  A base account constructed with balance `-5` keeps balance
`-5` (the internal withdrawal rejects a negative amount) yet still returns
`True`; a non-overdrawn premium close returns `None`, not `True` (the `else`
branch drops the delegated return value); a premium account with negative
limit keeps its balance (the closing withdrawal is refused as exceeding
`balance + overdraftLimit`); a premium account with flag cleared but negative
balance keeps its negative balance. -/
theorem close_cex :
    ((basicCloseAccount ⟨"N", -5, 1, none, none⟩).1.balance = -5 ∧
      (basicCloseAccount ⟨"N", -5, 1, none, none⟩).1.balance ≠ 0 ∧
      (basicCloseAccount ⟨"N", -5, 1, none, none⟩).2 = true) ∧
    (premiumCloseAccount ⟨⟨"P", 10, 2, none, none⟩, 100, false⟩).2 = none ∧
    (premiumCloseAccount ⟨⟨"Q", 5, 3, none, none⟩, -10, false⟩).1.balance = 5 ∧
    (premiumCloseAccount ⟨⟨"R", -5, 4, none, none⟩, 100, false⟩).1.balance = -5 := by
  refine ⟨⟨?_, ?_, rfl⟩, ?_, ?_, ?_⟩ <;>
    norm_num [basicCloseAccount, basicWithdraw, premiumCloseAccount,
      premiumWithdraw]

/-- C9 amended: close on an overdrawn-flagged overdraft account fails with
`False` and no state change; close on a base account with non-negative
balance zeroes the balance and returns `True`; close on an overdraft account
with the flag cleared, non-negative balance and non-negative limit zeroes the
balance but returns `None` (the success value of the delegated base closure
is not propagated), the success message being printed by the base closure. -/
theorem close_amended :
    (∀ s : PremiumAccount, s.overdraft = true →
      premiumCloseAccount s = (s, some false)) ∧
    (∀ s : BasicAccount, 0 ≤ s.balance →
      (basicCloseAccount s).1.balance = 0 ∧ (basicCloseAccount s).2 = true) ∧
    ∀ s : PremiumAccount, s.overdraft = false → 0 ≤ s.balance →
      0 ≤ s.overdraftLimit →
      (premiumCloseAccount s).1.balance = 0 ∧
      (premiumCloseAccount s).2 = none := by
  refine ⟨fun s hf => ?_, fun s hb => ?_, fun s hf hb hl => ?_⟩
  · simp [premiumCloseAccount, hf]
  · refine ⟨?_, rfl⟩
    show (basicWithdraw s (.num s.balance)).1.balance = 0
    simp only [basicWithdraw, if_neg (not_lt.mpr hb),
      if_neg (lt_irrefl s.balance)]
    show s.balance - s.balance = 0
    ring
  · constructor
    · have hcond : ¬(s.balance + s.overdraftLimit < s.balance) := by
        push_neg
        linarith
      simp only [premiumCloseAccount, hf]
      simp only [Bool.false_eq_true, if_false]
      simp only [premiumWithdraw, if_neg (not_lt.mpr hb), if_neg hcond]
      split_ifs with hneg
      · show s.balance - s.balance = 0
        ring
      · show s.balance - s.balance = 0
        ring
    · simp [premiumCloseAccount, hf]

/-- Witness for the amended C9 at concrete accounts for all three branches. -/
theorem close_amended_witness :
    (premiumCloseAccount ⟨⟨"W", -10, 1, none, none⟩, 100, true⟩ =
      (⟨⟨"W", -10, 1, none, none⟩, 100, true⟩, some false)) ∧
    ((basicCloseAccount ⟨"V", 100, 2, none, none⟩).1.balance = 0 ∧
      (basicCloseAccount ⟨"V", 100, 2, none, none⟩).2 = true) ∧
    ((premiumCloseAccount ⟨⟨"U", 20, 3, none, none⟩, 50, false⟩).1.balance = 0 ∧
      (premiumCloseAccount ⟨⟨"U", 20, 3, none, none⟩, 50, false⟩).2 = none) :=
  ⟨close_amended.1 _ rfl, close_amended.2.1 _ (by norm_num),
    close_amended.2.2 _ rfl (by norm_num) (by norm_num)⟩

end BankAccounts
